import Mathlib

/-!
Shallow embedding of the authentication/authorization core of the
`assignment_octal` FastAPI backend, together with the product CRUD route
handlers it guards.

Conventions of the embedding:
* Python exceptions are modelled with `Except`: a function that can raise
  returns `Except e α`, and a `try/except` block is a `match` on that value.
* Wall-clock time is an `Int` counting seconds since the epoch; `datetime`
  and `timedelta` values become `Int`s.
* MongoDB documents are association lists `Doc = List (String × Value)`;
  `find_one` is the first list element matching the filter (Mongo natural
  order), `$set` rewrites/append fields in order.
* The third-party libraries (passlib's `CryptContext` with the bcrypt
  scheme, PyJWT, bson's `ObjectId`) are modelled from their documented
  behaviour, since their code is not part of the repository:
  - bcrypt is modelled as an ideal salted one-way function: the digest is
    the pair (plaintext, salt), so distinct plaintexts never collide and
    distinct salts give distinct stored values (the 72-byte truncation of
    real bcrypt is not modelled);
  - `CryptContext.verify` raises `UnknownHashError` when the stored hash
    cannot be identified as a bcrypt hash (a corrupted / malformed value);
  - `jwt.decode` verifies the signature first (failure:
    `InvalidTokenError`), then the `exp` claim, rejecting with
    `ExpiredSignatureError` iff `exp <= now`;
  - `ObjectId.is_valid` on a string accepts exactly 24 hexadecimal
    characters.
-/

/-- Results of fallible functions are compared in concrete witnesses, so
`Except` needs decidable equality. -/
instance {ε α : Type} [DecidableEq ε] [DecidableEq α] : DecidableEq (Except ε α) :=
  fun x y =>
    match x, y with
    | .ok a, .ok b => decidable_of_iff (a = b) (by simp)
    | .ok _, .error _ => .isFalse (by simp)
    | .error _, .ok _ => .isFalse (by simp)
    | .error e, .error f => decidable_of_iff (e = f) (by simp)

/-- A raised `fastapi.HTTPException`, reduced to its status code and detail
string (the `WWW-Authenticate` header is dropped). -/
structure HTTPError where
  status : Nat
  detail : String
deriving DecidableEq

/-- Exceptions that the user-facing auth functions can raise: an
`HTTPException`, or passlib's `UnknownHashError` (raised by
`CryptContext.verify` on a hash it cannot identify). -/
inductive PyError where
  | httpExc (e : HTTPError)
  | unknownHash
  | pyMongoError
deriving DecidableEq

/-! ### Configuration (src/config.py defaults)

`SECRET_KEY` and `ACCESS_TOKEN_EXPIRE_MINUTES` are read from the
environment with these defaults; `src/users/utils/password.py` binds them
at import time. -/

def SECRET_KEY : String := "your_super_secret_key"

def ACCESS_TOKEN_EXPIRE_MINUTES : Int := 60

def ALGORITHM : String := "HS256"

/-! ### Password hasher (src/users/utils/password.py, passlib model) -/

/-- A well-formed bcrypt hash: the embedded salt and the digest.  The
digest of an ideal salted hash is modelled as the (plaintext, salt) pair
itself, which makes the one-way function collision-free. -/
structure BcryptHash where
  salt : Nat
  digest : String × Nat
deriving DecidableEq

/-- A value stored in the `password` field: either a well-formed bcrypt
hash, or arbitrary corrupted data that passlib cannot identify. -/
inductive StoredHash where
  | wellFormed (h : BcryptHash)
  | corrupt (raw : String)
deriving DecidableEq

/-- Model of `pwd_context.hash(password)` (passlib, schemes=["bcrypt"]):
hashes with a fresh random salt; the salt drawn by the library's RNG is
made an explicit argument. -/
def cryptContextHash (password : String) (salt : Nat) : StoredHash :=
  .wellFormed ⟨salt, (password, salt)⟩

/-- Model of `pwd_context.verify(secret, hash)` (passlib): raises
`UnknownHashError` when the stored value is not an identifiable bcrypt
hash, otherwise re-hashes the secret with the embedded salt and compares
digests. -/
def cryptContextVerify (secret : String) (stored : StoredHash) : Except PyError Bool :=
  match stored with
  | .corrupt _ => .error .unknownHash
  | .wellFormed h => .ok (decide (h.digest = (secret, h.salt)))

/-- `verify_password(plain_password, hashed_password)`: a direct call to
`pwd_context.verify` with no exception handling of its own. -/
def verify_password (plain_password : String) (hashed_password : StoredHash) :
    Except PyError Bool :=
  cryptContextVerify plain_password hashed_password

/-- `get_password_hash(password)`: a direct call to `pwd_context.hash`. -/
def get_password_hash (password : String) (salt : Nat) : StoredHash :=
  cryptContextHash password salt

/-! ### Token codec (src/users/utils/password.py, PyJWT model) -/

/-- A serialized JWT as handed to `jwt.decode`: either a string that does
not parse as a JWT at all, or a structured token carrying its claims, its
`exp` claim, and the key its signature verifies under (a tampered token is
one whose signature verifies under no key the server knows, i.e.
`sigKey ≠ SECRET_KEY`). -/
inductive TokenString where
  | malformed (raw : String)
  | structured (claims : List (String × String)) (exp : Int) (sigKey : String)
deriving DecidableEq

/-- PyJWT failure taxonomy as used by the source: `ExpiredSignatureError`
(a subclass of `InvalidTokenError`, caught first) and every other
`InvalidTokenError`. -/
inductive TokenError where
  | expired
  | invalid
deriving DecidableEq

/-- Model of `jwt.decode(token, key, algorithms=["HS256"])` at wall-clock
time `now`: signature (and structure) checked first, then the `exp` claim;
PyJWT rejects as expired iff `exp <= now` (zero leeway). -/
def jwtDecode (key : String) (now : Int) (t : TokenString) :
    Except TokenError (List (String × String)) :=
  match t with
  | .malformed _ => .error .invalid
  | .structured claims exp sigKey =>
    if sigKey ≠ key then .error .invalid
    else if exp ≤ now then .error .expired
    else .ok claims

/-- `create_access_token(data, expires_delta)`: copies `data`, sets
`exp = now + (expires_delta if expires_delta else timedelta(minutes=ACCESS_TOKEN_EXPIRE_MINUTES))`,
and signs with `SECRET_KEY`.  The ternary tests Python *truthiness*, and
`timedelta(0)` is falsy, so both `None` and an explicit zero delta fall
back to the configured default (a negative `timedelta` is truthy and is
honored).  `expires_delta` and the result's age are in seconds; an
`"exp"` key already present in `data` is overwritten. -/
def create_access_token (data : List (String × String)) (expires_delta : Option Int)
    (now : Int) : TokenString :=
  let expire := now +
    (match expires_delta with
     | some d => if d = 0 then ACCESS_TOKEN_EXPIRE_MINUTES * 60 else d
     | none => ACCESS_TOKEN_EXPIRE_MINUTES * 60)
  .structured (data.filter (fun kv => kv.1 ≠ "exp")) expire SECRET_KEY

/-- The `credentials_exception` built in `decode_token` and
`get_current_user`. -/
def credentials_exception : HTTPError :=
  ⟨401, "Could not validate credentials"⟩

/-- `decode_token(token)`: `jwt.decode` with `SECRET_KEY`; a missing
(`None`) `sub` claim raises the generic 401 (that `HTTPException` is not a
jwt error, so it escapes the `except` clauses); `ExpiredSignatureError`
maps to a 401 with detail "Token has expired"; any other
`InvalidTokenError` maps to the generic 401. -/
def decode_token (now : Int) (token : TokenString) : Except HTTPError String :=
  match jwtDecode SECRET_KEY now token with
  | .error .expired => .error ⟨401, "Token has expired"⟩
  | .error .invalid => .error credentials_exception
  | .ok payload =>
    match payload.lookup "sub" with
    | none => .error credentials_exception
    | some user_id => .ok user_id

/-! ### ObjectId (bson model) -/

/-- A character `bytes.fromhex` accepts as a hex digit. -/
def isHexChar (c : Char) : Bool :=
  c.isDigit || ('a' ≤ c && c ≤ 'f') || ('A' ≤ c && c ≤ 'F')

/-- Model of `bson.ObjectId.is_valid` on a string: exactly 24 hexadecimal
characters. -/
def isValidObjectId (s : String) : Bool :=
  s.length == 24 && s.toList.all isHexChar

/-! ### User records and UserService (src/users/services.py) -/

/-- `AuthSchema` (src/users/schemas/auth.py): a user document as read back
from the store; `_id` already converted to a string. -/
structure AuthSchema where
  id : String
  email : String
  username : String
  full_name : String
  password : StoredHash
  is_active : Bool
  created_at : Int
  updated_at : Int
deriving DecidableEq

/-- The `users` collection plus its connection status: `connected = false`
models a network/timeout `PyMongoError` raised by any query against it. -/
structure UserStore where
  docs : List AuthSchema
  connected : Bool
deriving DecidableEq

/-- `UserService.get_user_by_id(user_id)`: `ObjectId(user_id)` raises
`InvalidId` (a `ValueError`) on a malformed id, and the query raises
`PyMongoError` when the store is unreachable; both are caught by
`except (PyMongoError, ValueError)` and re-raised as an `HTTPException`
with status 500. -/
def get_user_by_id (st : UserStore) (user_id : String) :
    Except HTTPError (Option AuthSchema) :=
  if ¬ isValidObjectId user_id then .error ⟨500, "Error fetching user by ID"⟩
  else if ¬ st.connected then .error ⟨500, "Error fetching user by ID"⟩
  else .ok (st.docs.find? (fun u => u.id == user_id))

/-- `UserService.get_user_by_username(username)`: `find_one` on an exact
username match; `PyMongoError` is re-raised as a 500 `HTTPException`. -/
def get_user_by_username (st : UserStore) (username : String) :
    Except HTTPError (Option AuthSchema) :=
  if ¬ st.connected then .error ⟨500, "Error fetching user by email"⟩
  else .ok (st.docs.find? (fun u => u.username == username))

/-- `UserService.authenticate_user(username, password)`: returns `None`
both when the username is unknown and when the password fails
verification; exceptions from the lookup or from `verify_password`
propagate to the caller. -/
def authenticate_user (st : UserStore) (username password : String) :
    Except PyError (Option AuthSchema) :=
  match get_user_by_username st username with
  | .error e => .error (.httpExc e)
  | .ok none => .ok none
  | .ok (some user) =>
    match verify_password password user.password with
    | .error e => .error e
    | .ok b => .ok (if b then some user else none)

/-- Outcome of `UserService.check_if_user_exists(username, email)` with the
default `is_raise=True`: the two 400 `HTTPException`s, or falling through
(`return False`). -/
inductive CheckUserResult where
  | usernameTaken
  | emailTaken
  | ok
deriving DecidableEq

/-- `UserService.check_if_user_exists(username, email)`: one `find_one`
with an `$or` filter (modelled as the first matching document in store
order); if a document is found, its `username` field is compared first,
then its `email` field.  This method has no `try/except`, so a
`PyMongoError` from the query propagates raw. -/
def check_if_user_exists (st : UserStore) (username email : String) :
    Except PyError CheckUserResult :=
  if ¬ st.connected then .error .pyMongoError
  else
    match st.docs.find? (fun u => u.username == username || u.email == email) with
    | none => .ok .ok
    | some existing_user =>
      if existing_user.username == username then .ok .usernameTaken
      else if existing_user.email == email then .ok .emailTaken
      else .ok .ok

/-! ### Authorization guard (src/users/dependencies/permissions.py) -/

/-- `get_current_user(token)`: decode the token, check the subject id is
non-empty (`if not user_id`) and a valid `ObjectId`, fetch the user; every
failure inside the `try` block — including the `HTTPException`s raised by
`decode_token` and the 500 raised by `get_user_by_id` on a store failure —
is caught by the blanket `except Exception` and replaced with the one
generic 401 `credentials_exception`. -/
def get_current_user (st : UserStore) (now : Int) (token : TokenString) :
    Except HTTPError AuthSchema :=
  let inner : Except HTTPError AuthSchema :=
    match decode_token now token with
    | .error e => .error e
    | .ok user_id =>
      if user_id = "" ∨ ¬ isValidObjectId user_id then .error credentials_exception
      else
        match get_user_by_id st user_id with
        | .error e => .error e
        | .ok none => .error credentials_exception
        | .ok (some user_data) => .ok user_data
  match inner with
  | .ok u => .ok u
  | .error _ => .error credentials_exception

/-! ### Product documents (src/product/schemas.py, src/product/services.py)

A product document is a raw Mongo document: an association list from field
names to JSON scalar values (strings, integers, booleans; `condecimal`
prices are modelled as integers). -/

/-- A JSON scalar stored in a document field. -/
inductive Value where
  | s (v : String)
  | i (v : Int)
  | b (v : Bool)
deriving DecidableEq

/-- A Mongo document. -/
abbrev Doc : Type := List (String × Value)

/-- Mongo `$set` of a single field: overwrite it in place when present,
append it otherwise. -/
def setField (d : Doc) (k : String) (v : Value) : Doc :=
  cond (d.any (fun kv => kv.1 == k))
    (d.map (fun kv => cond (kv.1 == k) (k, v) kv))
    (d ++ [(k, v)])

/-- Mongo `$set` of a whole update document, field by field in order. -/
def applySet (d : Doc) (upd : Doc) : Doc :=
  upd.foldl (fun acc kv => setField acc kv.1 kv.2) d

/-- The `_id` filter used by every by-id product query. -/
def idMatches (pid : String) (d : Doc) : Bool :=
  d.lookup "_id" == some (.s pid)

/-- `find_one_and_update({"_id": pid}, {"$set": upd}, AFTER)`: update the
first document matching the id, returning the post-update document and the
new collection. -/
def updateFirst : List Doc → String → Doc → Option Doc × List Doc
  | [], _, _ => (none, [])
  | d :: rest, pid, upd =>
    cond (idMatches pid d)
      (some (applySet d upd), applySet d upd :: rest)
      (let r := updateFirst rest pid upd
       (r.1, d :: r.2))

/-- `delete_one({"_id": pid})`: remove the first matching document,
returning whether `deleted_count > 0` and the new collection. -/
def deleteFirst : List Doc → String → Bool × List Doc
  | [], _ => (false, [])
  | d :: rest, pid =>
    cond (idMatches pid d)
      (true, rest)
      (let r := deleteFirst rest pid
       (r.1, d :: r.2))

/-- `ProductSchema` after pydantic validation (src/product/schemas.py). -/
structure ParsedProduct where
  id : Option String
  name : String
  description : Option String
  price : Int
  stock : Int
  owner_id : String
  is_active : Bool
  created_at : Option Int
  updated_at : Option Int
deriving DecidableEq

/-- Read an optional field of a given shape: absent is fine (`some none`),
present with the wrong shape is a validation failure (`none`). -/
def optField (d : Doc) (k : String) (f : Value → Option α) : Option (Option α) :=
  match d.lookup k with
  | none => some none
  | some v => (f v).map some

def asStr : Value → Option String
  | .s v => some v
  | _ => none

def asInt : Value → Option Int
  | .i v => some v
  | _ => none

def asBool : Value → Option Bool
  | .b v => some v
  | _ => none

/-- The `validate_description` field validator: absent is fine, present
must be at most 500 characters. -/
def descrOk : Option String → Bool
  | none => true
  | some t => t.length ≤ 500

/-- `ProductSchema(**document)`: pydantic validation of a raw document.
Field constraints from src/product/schemas.py: `name` 3–50 characters,
`price > 0`, optional `description` of at most 500 characters, optional
`stock ≥ 0` defaulting to 0, optional `is_active` defaulting to true.
(`condecimal`'s digit bounds and the datetime default factories are not
modelled; stored documents always carry their timestamps.) -/
def parseProduct (d : Doc) : Option ParsedProduct :=
  match d.lookup "name", d.lookup "price", d.lookup "owner_id" with
  | some (.s name), some (.i price), some (.s owner) =>
    match optField d "_id" asStr, optField d "description" asStr,
          optField d "stock" asInt, optField d "is_active" asBool,
          optField d "created_at" asInt, optField d "updated_at" asInt with
    | some oid, some odescr, some ostock, some oactive, some ocreated, some oupdated =>
      if 3 ≤ name.length ∧ name.length ≤ 50 ∧ 0 < price ∧
         descrOk odescr ∧ 0 ≤ ostock.getD 0 then
        some { id := oid, name := name, description := odescr, price := price,
               stock := ostock.getD 0, owner_id := owner,
               is_active := oactive.getD true,
               created_at := ocreated, updated_at := oupdated }
      else none
    | _, _, _, _, _, _ => none
  | _, _, _ => none

/-! ### ProductService (src/product/services.py)

The product collection is modelled as a plain list (no connectivity flag:
no claim exercises a product-store failure).  Every service method wraps
its body in `try/except` and re-raises caught errors as a plain
`Exception`, modelled as `SvcErr.generic`; the `HTTPException(400)` raised
for an empty patch document escapes those `except` clauses. -/

inductive SvcErr where
  | generic (msg : String)
  | httpExc (e : HTTPError)
deriving DecidableEq

/-- `ProductService.get_product_by_id(product_id)`: an invalid id makes
`ObjectId(product_id)` raise `InvalidId` (a `ValueError`), and a pydantic
`ValidationError` (also a `ValueError`) from `ProductSchema(**product)` is
caught the same way; both become `Exception("Error fetching product by
ID")`. -/
def svc_get_product_by_id (store : List Doc) (product_id : String) :
    Except SvcErr (Option ParsedProduct) :=
  if ¬ isValidObjectId product_id then .error (.generic "Error fetching product by ID")
  else
    match store.find? (idMatches product_id) with
    | none => .ok none
    | some product =>
      match parseProduct product with
      | none => .error (.generic "Error fetching product by ID")
      | some p => .ok (some p)

/-- `ProductUpdateSchema` for PUT: four optional validated fields. -/
structure ProductUpdateSchema where
  name : Option String
  description : Option String
  price : Option Int
  stock : Option Int
deriving DecidableEq

/-- `update_data.model_dump(exclude_unset=True, exclude_defaults=True)`:
the dict of fields actually supplied (all defaults are `None`, so a field
appears iff it was set to a non-`None` value). -/
def updateSchemaDict (u : ProductUpdateSchema) : Doc :=
  (match u.name with | some v => [("name", Value.s v)] | none => []) ++
  (match u.description with | some v => [("description", Value.s v)] | none => []) ++
  (match u.price with | some v => [("price", Value.i v)] | none => []) ++
  (match u.stock with | some v => [("stock", Value.i v)] | none => [])

/-- `ProductService.update_product(product_id, update_data)` (PUT): dump
the validated schema, stamp `updated_at`, `$set` on the first matching
document; a `ValidationError` from re-parsing the updated document is
caught as a `ValueError` and re-raised as `Exception("Error updating
product")`. -/
def svc_update_product (store : List Doc) (product_id : String)
    (update_data : ProductUpdateSchema) (now : Int) :
    Except SvcErr (Option ParsedProduct) × List Doc :=
  if ¬ isValidObjectId product_id then (.error (.generic "Error updating product"), store)
  else
    let update_dict := setField (updateSchemaDict update_data) "updated_at" (.i now)
    let r := updateFirst store product_id update_dict
    match r.1 with
    | none => (.ok none, r.2)
    | some result =>
      match parseProduct result with
      | none => (.error (.generic "Error updating product"), r.2)
      | some p => (.ok (some p), r.2)

/-- `ProductService.partial_update_product(product_id, update_data)`
(PATCH): the update document is the raw request-body dict; an empty dict
raises `HTTPException(400, "No fields to update")`, which escapes the
`except (InvalidId, PyMongoError, ValueError)` clause; otherwise
`updated_at` is stamped into the dict and the whole dict is `$set`. -/
def svc_partial_update_product (store : List Doc) (product_id : String)
    (update_data : Doc) (now : Int) :
    Except SvcErr (Option ParsedProduct) × List Doc :=
  if ¬ isValidObjectId product_id then (.error (.generic "Error updating product"), store)
  else if update_data.isEmpty then
    (.error (.httpExc ⟨400, "No fields to update"⟩), store)
  else
    let update_dict := setField update_data "updated_at" (.i now)
    let r := updateFirst store product_id update_dict
    match r.1 with
    | none => (.ok none, r.2)
    | some result =>
      match parseProduct result with
      | none => (.error (.generic "Error updating product"), r.2)
      | some p => (.ok (some p), r.2)

/-- `ProductService.delete_product(product_id)`: `delete_one` by id,
returning `deleted_count > 0`. -/
def svc_delete_product (store : List Doc) (product_id : String) :
    Except SvcErr Bool × List Doc :=
  if ¬ isValidObjectId product_id then (.error (.generic "Error deleting product"), store)
  else
    let r := deleteFirst store product_id
    (.ok r.1, r.2)

/-! ### Product route handlers (src/product/api/crud.py)

Each handler receives the authenticated `current_user` (already resolved
by `get_current_user`) as its id string.  Responses are modelled as: a
successful body, an error returned as a `JSONResponse`, or a raised
`HTTPException`.  An exception that no handler catches (e.g. the
`Exception` re-raised by `ProductService.get_product_by_id`, which the
handlers call outside their `try` blocks) surfaces as the framework's
plain 500 response, modelled as `httpErr ⟨500, "Internal Server Error"⟩`. -/

inductive RouteResp where
  | ok (p : ParsedProduct)
  | jsonErr (status : Nat) (detail : String)
  | httpErr (e : HTTPError)
deriving DecidableEq

/-- HTTP status of a product route response (`ok` renders as 200). -/
def RouteResp.statusOf : RouteResp → Nat
  | .ok _ => 200
  | .jsonErr s _ => s
  | .httpErr e => e.status

/-- `update_product` (PUT /products/{product_id}): id-format check, fetch,
404, ownership check (403), then the service call inside `try`; any
exception from the service is caught by `except Exception` and returned as
a 500 `JSONResponse` (the `except ValidationError` branch is unreachable
for service errors, which arrive as plain `Exception`s). -/
def api_update_product (store : List Doc) (current_user_id : String)
    (product_id : String) (update_data : ProductUpdateSchema) (now : Int) :
    RouteResp × List Doc :=
  if ¬ isValidObjectId product_id then
    (.httpErr ⟨400, "Invalid product ID format"⟩, store)
  else
    match svc_get_product_by_id store product_id with
    | .error _ => (.httpErr ⟨500, "Internal Server Error"⟩, store)
    | .ok none => (.httpErr ⟨404, "Product not found"⟩, store)
    | .ok (some product) =>
      if product.owner_id ≠ current_user_id then
        (.httpErr ⟨403, "You do not have permission to update this product"⟩, store)
      else
        let r := svc_update_product store product_id update_data now
        match r.1 with
        | .error _ => (.jsonErr 500 "Internal server error", r.2)
        | .ok none => (.jsonErr 404 "Product not found", r.2)
        | .ok (some updated) => (.ok updated, r.2)

/-- `partial_update_product` (PATCH /products/{product_id}): same shape as
PUT, but the update payload is a raw dict; the service's
`HTTPException(400)` for an empty dict is also swallowed by the handler's
`except Exception` into a 500 `JSONResponse`. -/
def api_partial_update_product (store : List Doc) (current_user_id : String)
    (product_id : String) (update_data : Doc) (now : Int) :
    RouteResp × List Doc :=
  if ¬ isValidObjectId product_id then
    (.httpErr ⟨400, "Invalid product ID format"⟩, store)
  else
    match svc_get_product_by_id store product_id with
    | .error _ => (.httpErr ⟨500, "Internal Server Error"⟩, store)
    | .ok none => (.httpErr ⟨404, "Product not found"⟩, store)
    | .ok (some product) =>
      if product.owner_id ≠ current_user_id then
        (.httpErr ⟨403, "You do not have permission to update this product"⟩, store)
      else
        let r := svc_partial_update_product store product_id update_data now
        match r.1 with
        | .error _ => (.jsonErr 500 "Internal server error", r.2)
        | .ok none => (.jsonErr 404 "Product not found", r.2)
        | .ok (some updated) => (.ok updated, r.2)

/-- Responses of the DELETE handler: the success message, or a raised
`HTTPException` (the handler has no `try`, so a service exception surfaces
as the framework 500). -/
inductive DeleteResp where
  | okMsg
  | httpErr (e : HTTPError)
deriving DecidableEq

/-- HTTP status of a DELETE response. -/
def DeleteResp.statusOf : DeleteResp → Nat
  | .okMsg => 200
  | .httpErr e => e.status

/-- `delete_product` (DELETE /products/{product_id}): id-format check,
fetch, 404, ownership check (403), then `ProductService.delete_product`;
`success = False` yields a 500 `HTTPException`. -/
def api_delete_product (store : List Doc) (current_user_id : String)
    (product_id : String) : DeleteResp × List Doc :=
  if ¬ isValidObjectId product_id then
    (.httpErr ⟨400, "Invalid product ID format"⟩, store)
  else
    match svc_get_product_by_id store product_id with
    | .error _ => (.httpErr ⟨500, "Internal Server Error"⟩, store)
    | .ok none => (.httpErr ⟨404, "Product not found"⟩, store)
    | .ok (some product) =>
      if product.owner_id ≠ current_user_id then
        (.httpErr ⟨403, "You do not have permission to delete this product"⟩, store)
      else
        let r := svc_delete_product store product_id
        match r.1 with
        | .error _ => (.httpErr ⟨500, "Internal Server Error"⟩, r.2)
        | .ok false => (.httpErr ⟨500, "Failed to delete product"⟩, r.2)
        | .ok true => (.okMsg, r.2)

/-! ### Lemmas about field lookup under Mongo `$set` -/

theorem lookup_replace_self (d : Doc) (k : String) (v : Value)
    (h : d.any (fun kv => kv.1 == k) = true) :
    (d.map (fun kv => cond (kv.1 == k) (k, v) kv)).lookup k = some v := by
  induction d with
  | nil => simp at h
  | cons hd tl ih =>
    by_cases hk : hd.1 = k
    · simp [List.lookup, hk]
    · have hk' : (hd.1 == k) = false := beq_eq_false_iff_ne.mpr hk
      have h2 : (k == hd.1) = false := beq_eq_false_iff_ne.mpr (Ne.symm hk)
      simp only [List.any_cons, hk', Bool.false_or] at h
      simp only [List.map_cons, hk', Bool.cond_false, List.lookup, h2]
      exact ih h

theorem lookup_replace_ne (d : Doc) (k k' : String) (v : Value) (hne : k' ≠ k) :
    (d.map (fun kv => cond (kv.1 == k) (k, v) kv)).lookup k' = d.lookup k' := by
  induction d with
  | nil => simp
  | cons hd tl ih =>
    by_cases hk : hd.1 = k
    · have hk' : (hd.1 == k) = true := beq_iff_eq.mpr hk
      have h1 : (k' == k) = false := beq_eq_false_iff_ne.mpr hne
      have h2 : (k' == hd.1) = false := beq_eq_false_iff_ne.mpr (hk ▸ hne)
      simp only [List.map_cons, hk', Bool.cond_true, List.lookup, h1, h2]
      exact ih
    · have hk' : (hd.1 == k) = false := beq_eq_false_iff_ne.mpr hk
      simp only [List.map_cons, hk', Bool.cond_false, List.lookup]
      cases hkk : (k' == hd.1) with
      | true => rfl
      | false => exact ih

theorem lookup_eq_none_of_not_any (d : Doc) (k : String)
    (h : d.any (fun kv => kv.1 == k) = false) :
    d.lookup k = none := by
  induction d with
  | nil => rfl
  | cons hd tl ih =>
    simp only [List.any_cons, Bool.or_eq_false_iff] at h
    have h2 : (k == hd.1) = false := by
      rcases h with ⟨h1, _⟩
      exact beq_eq_false_iff_ne.mpr (Ne.symm (beq_eq_false_iff_ne.mp h1))
    simp only [List.lookup, h2]
    exact ih h.2

theorem lookup_append_single_self (d : Doc) (k : String) (v : Value)
    (h : d.lookup k = none) :
    (d ++ [(k, v)]).lookup k = some v := by
  induction d with
  | nil => simp [List.lookup]
  | cons hd tl ih =>
    simp only [List.lookup] at h
    simp only [List.cons_append, List.lookup]
    cases hkk : (k == hd.1) with
    | true => simp [hkk] at h
    | false =>
      simp only [hkk] at h
      exact ih h

theorem lookup_append_single_ne (d : Doc) (k k' : String) (v : Value) (hne : k' ≠ k) :
    (d ++ [(k, v)]).lookup k' = d.lookup k' := by
  induction d with
  | nil => simp [List.lookup, beq_eq_false_iff_ne.mpr hne]
  | cons hd tl ih =>
    simp only [List.cons_append, List.lookup]
    cases hkk : (k' == hd.1) with
    | true => rfl
    | false => exact ih

theorem lookup_setField_self (d : Doc) (k : String) (v : Value) :
    (setField d k v).lookup k = some v := by
  unfold setField
  cases hany : d.any (fun kv => kv.1 == k) with
  | true => simpa using lookup_replace_self d k v hany
  | false =>
    simpa using lookup_append_single_self d k v (lookup_eq_none_of_not_any d k hany)

theorem lookup_setField_ne (d : Doc) (k k' : String) (v : Value) (hne : k' ≠ k) :
    (setField d k v).lookup k' = d.lookup k' := by
  unfold setField
  cases hany : d.any (fun kv => kv.1 == k) with
  | true => simpa using lookup_replace_ne d k k' v hne
  | false => simpa using lookup_append_single_ne d k k' v hne

theorem keys_setField (d : Doc) (k k' : String) (v : Value)
    (h : k' ∈ (setField d k v).map Prod.fst) :
    k' ∈ d.map Prod.fst ∨ k' = k := by
  unfold setField at h
  cases hany : d.any (fun kv => kv.1 == k) with
  | true =>
    rw [hany, Bool.cond_true, List.map_map] at h
    rcases List.mem_map.mp h with ⟨kv, hmem, heq⟩
    by_cases hk : kv.1 = k
    · right
      have : (kv.1 == k) = true := beq_iff_eq.mpr hk
      simp only [Function.comp, this, Bool.cond_true] at heq
      exact heq.symm
    · left
      have : (kv.1 == k) = false := beq_eq_false_iff_ne.mpr hk
      simp only [Function.comp, this, Bool.cond_false] at heq
      exact List.mem_map.mpr ⟨kv, hmem, heq⟩
  | false =>
    rw [hany, Bool.cond_false, List.map_append] at h
    rcases List.mem_append.mp h with h | h
    · left; exact h
    · right; simpa using h

theorem lookup_applySet_notMem (upd : Doc) (k : String)
    (h : k ∉ upd.map Prod.fst) :
    ∀ d : Doc, (applySet d upd).lookup k = d.lookup k := by
  induction upd with
  | nil => intro d; rfl
  | cons hd tl ih =>
    intro d
    simp only [List.map_cons, List.mem_cons, not_or] at h
    have step : applySet d (hd :: tl) = applySet (setField d hd.1 hd.2) tl := rfl
    rw [step, ih h.2, lookup_setField_ne _ _ _ _ h.1]

theorem lookup_applySet_mem (upd : Doc) (k : String) (v : Value)
    (hnd : (upd.map Prod.fst).Nodup) (h : upd.lookup k = some v) :
    ∀ d : Doc, (applySet d upd).lookup k = some v := by
  induction upd with
  | nil => simp [List.lookup] at h
  | cons hd tl ih =>
    intro d
    have step : applySet d (hd :: tl) = applySet (setField d hd.1 hd.2) tl := rfl
    simp only [List.map_cons, List.nodup_cons] at hnd
    rw [step]
    obtain ⟨k0, v0⟩ := hd
    rcases hkk : (k == k0) with _ | _
    · have h' : tl.lookup k = some v := by simpa [List.lookup, hkk] using h
      exact ih hnd.2 h' (setField d k0 v0)
    · have hk : k = k0 := beq_iff_eq.mp hkk
      have hv : some v0 = some v := by simpa [List.lookup, hkk] using h
      have hnotmem : k ∉ tl.map Prod.fst := by rw [hk]; exact hnd.1
      rw [lookup_applySet_notMem tl k hnotmem, hk, lookup_setField_self]
      simpa using hv

theorem updateFirst_spec (pid : String) (u : Doc) :
    ∀ (store : List Doc) (d0 : Doc),
    store.find? (idMatches pid) = some d0 →
    idMatches pid (applySet d0 u) = true →
    (updateFirst store pid u).1 = some (applySet d0 u) ∧
    (updateFirst store pid u).2.find? (idMatches pid) = some (applySet d0 u) := by
  intro store
  induction store with
  | nil => intro d0 hfind _; simp [List.find?] at hfind
  | cons d rest ih =>
    intro d0 hfind hid
    rcases hm : idMatches pid d with _ | _
    · have hfind' : rest.find? (idMatches pid) = some d0 := by
        simpa [List.find?, hm] using hfind
      have hrec := ih d0 hfind' hid
      simp only [updateFirst, hm, Bool.cond_false]
      exact ⟨hrec.1, by simpa [List.find?, hm] using hrec.2⟩
    · have hd0 : d = d0 := by simpa [List.find?, hm] using hfind
      subst hd0
      simp only [updateFirst, hm, Bool.cond_true]
      exact ⟨trivial, by simp [List.find?, hid]⟩

/-! ### Claim theorems: password hasher -/

/-- Claim C8: for every plaintext `p`, `verify(p, hash(p))` is true; two
calls to `hash(p)` (drawing distinct salts) produce different stored
values yet both verify against `p`; and for `p ≠ q`,
`verify(p, hash(q))` is false. -/
theorem hash_verify_roundtrip_c8 (p q : String) (s s' : Nat) :
    verify_password p (get_password_hash p s) = .ok true ∧
    (s ≠ s' → get_password_hash p s ≠ get_password_hash p s' ∧
      verify_password p (get_password_hash p s') = .ok true) ∧
    (p ≠ q → verify_password p (get_password_hash q s) = .ok false) := by
  refine ⟨?_, fun hs => ⟨?_, ?_⟩, fun hpq => ?_⟩
  · simp [verify_password, get_password_hash, cryptContextVerify, cryptContextHash]
  · simp [get_password_hash, cryptContextHash, BcryptHash.mk.injEq, hs]
  · simp [verify_password, get_password_hash, cryptContextVerify, cryptContextHash]
  · simp [verify_password, get_password_hash, cryptContextVerify, cryptContextHash,
      Prod.ext_iff, Ne.symm hpq]

/-- Witness for C8 at concrete inputs. -/
theorem hash_verify_roundtrip_c8_witness :
    verify_password "alpha" (get_password_hash "alpha" 0) = .ok true ∧
    (get_password_hash "alpha" 0 ≠ get_password_hash "alpha" 1 ∧
      verify_password "alpha" (get_password_hash "alpha" 1) = .ok true) ∧
    verify_password "alpha" (get_password_hash "beta" 0) = .ok false :=
  ⟨(hash_verify_roundtrip_c8 "alpha" "beta" 0 1).1,
   (hash_verify_roundtrip_c8 "alpha" "beta" 0 1).2.1 (by decide),
   (hash_verify_roundtrip_c8 "alpha" "beta" 0 1).2.2 (by decide)⟩

/-- Counterexample to claim C3: on a corrupted stored hash,
`verify_password` does not return a boolean — it propagates passlib's
`UnknownHashError` to its caller (the source wraps nothing). -/
theorem verify_password_raises_c3_cex :
    verify_password "secret" (StoredHash.corrupt "not-a-bcrypt-hash") =
      .error PyError.unknownHash := rfl

/-- Claim C3 (amended): for well-formed stored hashes `verify_password`
returns a boolean (false on mismatch, true on match) and never raises;
but on a malformed/corrupted stored hash it raises the hashing library's
`UnknownHashError` instead of returning false. -/
theorem verify_password_behavior_c3 (p q raw : String) (salt : Nat) :
    verify_password p (get_password_hash p salt) = .ok true ∧
    (p ≠ q → verify_password p (get_password_hash q salt) = .ok false) ∧
    verify_password p (StoredHash.corrupt raw) = .error PyError.unknownHash := by
  refine ⟨?_, fun hpq => ?_, rfl⟩
  · simp [verify_password, get_password_hash, cryptContextVerify, cryptContextHash]
  · simp [verify_password, get_password_hash, cryptContextVerify, cryptContextHash,
      Prod.ext_iff, Ne.symm hpq]

/-- Witness for the amended C3 at concrete inputs. -/
theorem verify_password_behavior_c3_witness :
    verify_password "pw" (get_password_hash "pw" 7) = .ok true ∧
    verify_password "pw" (get_password_hash "other" 7) = .ok false ∧
    verify_password "pw" (StoredHash.corrupt "garbage") = .error PyError.unknownHash :=
  ⟨(verify_password_behavior_c3 "pw" "other" "garbage" 7).1,
   (verify_password_behavior_c3 "pw" "other" "garbage" 7).2.1 (by decide),
   (verify_password_behavior_c3 "pw" "other" "garbage" 7).2.2⟩

/-! ### Claim theorems: token codec -/

/-- Counterexample to claim C4: a token with a valid signature, a future
expiry and an empty-string `sub` claim is not rejected by `decode_token` —
the empty string is returned as the subject id (`payload.get("sub")` is
only compared against `None`). -/
theorem empty_sub_accepted_c4_cex :
    decode_token 0 (.structured [("sub", "")] 100 SECRET_KEY) = .ok "" := rfl

/-- Claim C4 (amended): on a validly signed, unexpired token,
`decode_token` rejects a missing `sub` claim with the generic 401, but an
empty-string `sub` is returned as the subject id; the empty subject is
instead rejected downstream by `get_current_user`'s `if not user_id`
check, with the same generic 401. -/
theorem decode_token_sub_handling_c4 (claims : List (String × String)) (exp now : Int)
    (hnotexp : now < exp) :
    (claims.lookup "sub" = none →
      decode_token now (.structured claims exp SECRET_KEY) = .error credentials_exception) ∧
    (claims.lookup "sub" = some "" →
      decode_token now (.structured claims exp SECRET_KEY) = .ok "" ∧
      ∀ st : UserStore, get_current_user st now (.structured claims exp SECRET_KEY) =
        .error credentials_exception) := by
  have hdec : jwtDecode SECRET_KEY now (.structured claims exp SECRET_KEY) = .ok claims := by
    simp [jwtDecode, not_le.mpr hnotexp]
  constructor
  · intro h
    simp [decode_token, hdec, h]
  · intro h
    have h1 : decode_token now (.structured claims exp SECRET_KEY) = .ok "" := by
      simp [decode_token, hdec, h]
    exact ⟨h1, fun st => by simp [get_current_user, h1]⟩

/-- Witness for the amended C4 at concrete inputs. -/
theorem decode_token_sub_handling_c4_witness :
    decode_token 0 (.structured [] 100 SECRET_KEY) = .error credentials_exception ∧
    decode_token 0 (.structured [("sub", "")] 100 SECRET_KEY) = .ok "" ∧
    get_current_user ⟨[], true⟩ 0 (.structured [("sub", "")] 100 SECRET_KEY) =
      .error credentials_exception :=
  ⟨(decode_token_sub_handling_c4 [] 100 0 (by decide)).1 rfl,
   ((decode_token_sub_handling_c4 [("sub", "")] 100 0 (by decide)).2 rfl).1,
   ((decode_token_sub_handling_c4 [("sub", "")] 100 0 (by decide)).2 rfl).2 ⟨[], true⟩⟩

/-- Counterexample to claim C7: issuing with an explicit ttl of zero does
not encode `exp = now + 0` — Python truthiness treats `timedelta(0)` as
falsy, so the 60-minute default is taken, and the token still verifies at
a check time strictly after `now + 0`. -/
theorem zero_ttl_default_c7_cex :
    create_access_token [("sub", "abc")] (some 0) 0 =
      .structured [("sub", "abc")] 3600 SECRET_KEY ∧
    decode_token 5 (create_access_token [("sub", "abc")] (some 0) 0) = .ok "abc" := by
  decide

/-- Claim C7 (amended): a token issued for subject `sub` encodes exactly
`{sub, exp = now + T}` where `T` is the explicit ttl when it is nonzero,
and the configured `ACCESS_TOKEN_EXPIRE_MINUTES` default when no ttl is
given *or* the explicit ttl is zero (Python truthiness of `timedelta`);
whatever the encoded expiry `e` is, verification succeeds for any check
strictly before `e` and fails as expired at or after `e`. -/
theorem token_issue_verify_c7 (sub : String) (ttl : Option Int) (now t : Int) :
    (∀ d, ttl = some d → d ≠ 0 →
      create_access_token [("sub", sub)] ttl now =
        .structured [("sub", sub)] (now + d) SECRET_KEY) ∧
    (ttl = none ∨ ttl = some 0 →
      create_access_token [("sub", sub)] ttl now =
        .structured [("sub", sub)] (now + ACCESS_TOKEN_EXPIRE_MINUTES * 60) SECRET_KEY) ∧
    (∀ e, create_access_token [("sub", sub)] ttl now =
        .structured [("sub", sub)] e SECRET_KEY →
      (t < e →
        jwtDecode SECRET_KEY t (create_access_token [("sub", sub)] ttl now) =
          .ok [("sub", sub)] ∧
        decode_token t (create_access_token [("sub", sub)] ttl now) = .ok sub) ∧
      (e ≤ t →
        jwtDecode SECRET_KEY t (create_access_token [("sub", sub)] ttl now) =
          .error .expired ∧
        decode_token t (create_access_token [("sub", sub)] ttl now) =
          .error ⟨401, "Token has expired"⟩)) := by
  refine ⟨?_, ?_, ?_⟩
  · intro d hd hdne
    subst hd
    show TokenString.structured _ (now + if d = 0 then _ else d) _ = _
    rw [if_neg hdne]
    rfl
  · rintro (rfl | rfl) <;> rfl
  · intro e he
    constructor
    · intro hlt
      have hd : jwtDecode SECRET_KEY t (create_access_token [("sub", sub)] ttl now) =
          .ok [("sub", sub)] := by
        rw [he]; simp [jwtDecode, not_le.mpr hlt]
      exact ⟨hd, by simp [decode_token, hd, List.lookup]⟩
    · intro hge
      have hd : jwtDecode SECRET_KEY t (create_access_token [("sub", sub)] ttl now) =
          .error .expired := by
        rw [he]; simp [jwtDecode, hge]
      exact ⟨hd, by simp [decode_token, hd]⟩

/-- Witness for the amended C7: a token issued at time 0 with ttl 100 for
subject "abc" encodes `exp = 100`, verifies at time 99 and is expired at
time 100; a token issued with no explicit ttl carries `exp = 3600`. -/
theorem token_issue_verify_c7_witness :
    create_access_token [("sub", "abc")] (some 100) 0 =
      .structured [("sub", "abc")] 100 SECRET_KEY ∧
    create_access_token [("sub", "abc")] none 0 =
      .structured [("sub", "abc")] 3600 SECRET_KEY ∧
    decode_token 99 (create_access_token [("sub", "abc")] (some 100) 0) = .ok "abc" ∧
    decode_token 100 (create_access_token [("sub", "abc")] (some 100) 0) =
      .error ⟨401, "Token has expired"⟩ := by
  have h99 := token_issue_verify_c7 "abc" (some 100) 0 99
  have h100 := token_issue_verify_c7 "abc" (some 100) 0 100
  have hdef := token_issue_verify_c7 "abc" none 0 0
  have henc := h99.1 100 rfl (by decide)
  exact ⟨henc, hdef.2.1 (Or.inl rfl),
    ((h99.2.2 100 henc).1 (by decide)).2,
    ((h100.2.2 100 (h100.1 100 rfl (by decide))).2 (by decide)).2⟩

/-! ### Claim theorems: authorization guard and authentication service -/

theorem get_current_user_cases (st : UserStore) (now : Int) (token : TokenString) :
    (∃ u, get_current_user st now token = .ok u) ∨
    get_current_user st now token = .error credentials_exception := by
  unfold get_current_user
  cases hdec : decode_token now token with
  | error e => right; simp only [hdec]
  | ok uid =>
    simp only [hdec]
    by_cases hcond : uid = "" ∨ ¬ isValidObjectId uid
    · right; rw [if_pos hcond]
    · rw [if_neg hcond]
      cases hget : get_user_by_id st uid with
      | error e => right; simp only [hget]
      | ok ou =>
        cases ou with
        | none => right; simp only [hget]
        | some u => left; exact ⟨u, by simp only [hget]⟩

/-- Claim C2: identity resolution either returns a user record or fails
with the one generic 401 `credentials_exception`; in particular a
structurally tampered token (signature under a different key), an expired
token and an unparsable token all produce exactly that error, and nothing
else escapes. -/
theorem resolve_identity_total_c2 (st : UserStore) (now : Int) (token : TokenString) :
    ((∃ u, get_current_user st now token = .ok u) ∨
      get_current_user st now token = .error credentials_exception) ∧
    credentials_exception = ⟨401, "Could not validate credentials"⟩ ∧
    (∀ claims exp key, key ≠ SECRET_KEY →
      get_current_user st now (.structured claims exp key) = .error credentials_exception) ∧
    (∀ claims exp, exp ≤ now →
      get_current_user st now (.structured claims exp SECRET_KEY) =
        .error credentials_exception) ∧
    (∀ raw, get_current_user st now (.malformed raw) = .error credentials_exception) := by
  refine ⟨get_current_user_cases st now token, rfl, ?_, ?_, ?_⟩
  · intro claims exp key hk
    have hdec : decode_token now (.structured claims exp key) =
        .error credentials_exception := by
      simp [decode_token, jwtDecode, hk]
    simp [get_current_user, hdec]
  · intro claims exp hexp
    have hdec : decode_token now (.structured claims exp SECRET_KEY) =
        .error ⟨401, "Token has expired"⟩ := by
      simp [decode_token, jwtDecode, hexp]
    simp [get_current_user, hdec]
  · intro raw
    have hdec : decode_token now (.malformed raw) = .error credentials_exception := rfl
    simp [get_current_user, hdec]

/-- Witness for C2: tampered, expired and malformed tokens all resolve to
the generic 401. -/
theorem resolve_identity_total_c2_witness :
    get_current_user ⟨[], true⟩ 0 (.structured [("sub", "x")] 100 "wrong_key") =
      .error credentials_exception ∧
    get_current_user ⟨[], true⟩ 100 (.structured [("sub", "x")] 100 SECRET_KEY) =
      .error credentials_exception ∧
    get_current_user ⟨[], true⟩ 0 (.malformed "not.a.jwt") =
      .error credentials_exception :=
  ⟨(resolve_identity_total_c2 ⟨[], true⟩ 0 (.malformed "")).2.2.1 [("sub", "x")] 100
      "wrong_key" (by decide),
   (resolve_identity_total_c2 ⟨[], true⟩ 100 (.malformed "")).2.2.2.1 [("sub", "x")] 100
      (by decide),
   (resolve_identity_total_c2 ⟨[], true⟩ 0 (.malformed "")).2.2.2.2 "not.a.jwt"⟩

/-- Claim C6: an unknown username and a known username with a wrong
password are indistinguishable to the caller of `authenticate_user` — both
return `None` with no error raised. -/
theorem auth_failures_indistinguishable_c6 (st : UserStore)
    (uKnown uUnknown pWrong pAny : String) (user : AuthSchema)
    (hconn : st.connected = true)
    (hunknown : st.docs.find? (fun u => u.username == uUnknown) = none)
    (hknown : st.docs.find? (fun u => u.username == uKnown) = some user)
    (hwrong : verify_password pWrong user.password = .ok false) :
    authenticate_user st uUnknown pAny = .ok none ∧
    authenticate_user st uKnown pWrong = .ok none ∧
    authenticate_user st uUnknown pAny = authenticate_user st uKnown pWrong := by
  have h1 : authenticate_user st uUnknown pAny = .ok none := by
    simp [authenticate_user, get_user_by_username, hconn, hunknown]
  have h2 : authenticate_user st uKnown pWrong = .ok none := by
    simp [authenticate_user, get_user_by_username, hconn, hknown, hwrong]
  exact ⟨h1, h2, h1.trans h2.symm⟩

/-- Witness for C6: with one user "alice" (password "correct") in store,
`authenticate_user "nobody" "anything"` and
`authenticate_user "alice" "wrongpass"` both return `None`. -/
theorem auth_failures_indistinguishable_c6_witness :
    authenticate_user
        ⟨[⟨"aaaaaaaaaaaaaaaaaaaaaaaa", "a@x.com", "alice", "Alice",
            get_password_hash "correct" 0, true, 0, 0⟩], true⟩
        "nobody" "anything" = .ok none ∧
    authenticate_user
        ⟨[⟨"aaaaaaaaaaaaaaaaaaaaaaaa", "a@x.com", "alice", "Alice",
            get_password_hash "correct" 0, true, 0, 0⟩], true⟩
        "alice" "wrongpass" = .ok none := by
  have h := auth_failures_indistinguishable_c6
      ⟨[⟨"aaaaaaaaaaaaaaaaaaaaaaaa", "a@x.com", "alice", "Alice",
          get_password_hash "correct" 0, true, 0, 0⟩], true⟩
      "alice" "nobody" "wrongpass" "anything"
      ⟨"aaaaaaaaaaaaaaaaaaaaaaaa", "a@x.com", "alice", "Alice",
          get_password_hash "correct" 0, true, 0, 0⟩
      rfl (by decide) (by decide) rfl
  exact ⟨h.1, h.2.1⟩

/-- Store used to settle claim C5: the first record collides with the
candidate on email only, the second on username only. -/
def c5Store : UserStore :=
  ⟨[⟨"aaaaaaaaaaaaaaaaaaaaaaaa", "a@x.com", "bob", "Bob",
      get_password_hash "p1" 0, true, 0, 0⟩,
    ⟨"bbbbbbbbbbbbbbbbbbbbbbbb", "b@x.com", "alice", "Alice",
      get_password_hash "p2" 1, true, 0, 0⟩], true⟩

/-- Counterexample to claim C5: a record matching the candidate's username
("alice") exists in the store, yet registration of
username "alice" / email "a@x.com" fails with `EmailTaken`, because the
single `$or` lookup returns the earlier record, which collides on email
only. -/
theorem username_priority_c5_cex :
    (∃ u ∈ c5Store.docs, u.username = "alice") ∧
    check_if_user_exists c5Store "alice" "a@x.com" = .ok .emailTaken := by
  constructor
  · exact ⟨c5Store.docs.get ⟨1, by decide⟩, by decide, rfl⟩
  · rfl

/-- Claim C5 (amended): the uniqueness check inspects only the first
record (in store order) matching the `$or` filter: if that record's
username matches the candidate it fails with `UsernameTaken`, otherwise
with `EmailTaken` — so username priority holds when one record collides on
both fields, but when distinct records collide on the two fields the error
reported is decided by which record the lookup returns first; with no
matching record the check passes. -/
theorem check_user_first_match_c5 (st : UserStore) (username email : String)
    (hconn : st.connected = true) :
    (st.docs.find? (fun u => u.username == username || u.email == email) = none →
      check_if_user_exists st username email = .ok .ok) ∧
    (∀ u, st.docs.find? (fun u => u.username == username || u.email == email) = some u →
      check_if_user_exists st username email =
        .ok (if u.username = username then .usernameTaken else .emailTaken)) := by
  constructor
  · intro h
    simp [check_if_user_exists, hconn, h]
  · intro u hu
    have hp := List.find?_some hu
    simp only [Bool.or_eq_true, beq_iff_eq] at hp
    by_cases hc : u.username = username
    · simp [check_if_user_exists, hconn, hu, hc]
    · have he : u.email = email := hp.resolve_left hc
      simp [check_if_user_exists, hconn, hu, hc, he]

/-- Witness for the amended C5: same-record collisions give username
priority; a candidate matching nothing passes. -/
theorem check_user_first_match_c5_witness :
    check_if_user_exists c5Store "bob" "a@x.com" = .ok .usernameTaken ∧
    check_if_user_exists c5Store "charlie" "c@x.com" = .ok .ok := by
  constructor
  · have h := (check_user_first_match_c5 c5Store "bob" "a@x.com" rfl).2
      ⟨"aaaaaaaaaaaaaaaaaaaaaaaa", "a@x.com", "bob", "Bob",
        get_password_hash "p1" 0, true, 0, 0⟩ (by decide)
    simpa using h
  · exact (check_user_first_match_c5 c5Store "charlie" "c@x.com" rfl).1 (by decide)

/-- Counterexample to claim C9: with the user store unreachable
(connectivity failure), identity resolution on a perfectly valid token
returns the generic 401 `credentials_exception` — the same result as every
auth-decision failure — even though the service layer raised a 500. -/
theorem conn_failure_conflated_c9_cex :
    get_current_user ⟨[], false⟩ 0
        (.structured [("sub", "aaaaaaaaaaaaaaaaaaaaaaaa")] 100 SECRET_KEY) =
      .error credentials_exception ∧
    get_user_by_id ⟨[], false⟩ "aaaaaaaaaaaaaaaaaaaaaaaa" =
      .error ⟨500, "Error fetching user by ID"⟩ := by decide

/-- Claim C9 (amended): `get_user_by_id` does map record-store
connectivity failures to a distinct generic 500 internal error (not 401 /
403 / 400), but `get_current_user`'s blanket `except Exception` converts
that failure into the generic 401 during identity resolution, conflating
it with the auth-decision errors. -/
theorem conn_failure_conflated_c9 (st : UserStore) (user_id : String) (now exp : Int)
    (claims : List (String × String))
    (hvalid : isValidObjectId user_id = true)
    (hdisc : st.connected = false) :
    get_user_by_id st user_id = .error ⟨500, "Error fetching user by ID"⟩ ∧
    ((500 : Nat) ≠ 401 ∧ (500 : Nat) ≠ 403 ∧ (500 : Nat) ≠ 400) ∧
    (claims.lookup "sub" = some user_id → user_id ≠ "" → now < exp →
      get_current_user st now (.structured claims exp SECRET_KEY) =
        .error credentials_exception) := by
  have hget : get_user_by_id st user_id = .error ⟨500, "Error fetching user by ID"⟩ := by
    simp [get_user_by_id, hvalid, hdisc]
  refine ⟨hget, ⟨by decide, by decide, by decide⟩, fun hsub hne hexp => ?_⟩
  have hdec : decode_token now (.structured claims exp SECRET_KEY) = .ok user_id := by
    simp [decode_token, jwtDecode, not_le.mpr hexp, hsub]
  simp [get_current_user, hdec, hvalid, hne, hget]

/-- Witness for the amended C9 at a concrete disconnected store. -/
theorem conn_failure_conflated_c9_witness :
    get_user_by_id ⟨[], false⟩ "bbbbbbbbbbbbbbbbbbbbbbbb" =
      .error ⟨500, "Error fetching user by ID"⟩ ∧
    get_current_user ⟨[], false⟩ 0
        (.structured [("sub", "bbbbbbbbbbbbbbbbbbbbbbbb")] 50 SECRET_KEY) =
      .error credentials_exception := by
  have h := conn_failure_conflated_c9 ⟨[], false⟩ "bbbbbbbbbbbbbbbbbbbbbbbb" 0 50
      [("sub", "bbbbbbbbbbbbbbbbbbbbbbbb")] (by decide) rfl
  exact ⟨h.1, h.2.2 rfl (by decide) (by decide)⟩

/-! ### Claim theorems: product ownership guard and PATCH semantics -/

/-- Claim C1: for every mutating product operation (PUT, PATCH, DELETE)
and every authenticated identity, the operation returns the 403 Forbidden
`HTTPException` when the product's `owner_id` differs from the identity's
id — with the store untouched, i.e. the ownership comparison happens
before any mutation — and passes the ownership check (never yielding a
403) when they are equal. -/
theorem ownership_guard_c1
    (store : List Doc) (current_user_id product_id : String)
    (u : ProductUpdateSchema) (upd : Doc) (now : Int) (product : ParsedProduct)
    (hvalid : isValidObjectId product_id = true)
    (hfind : svc_get_product_by_id store product_id = .ok (some product)) :
    (product.owner_id ≠ current_user_id →
      api_update_product store current_user_id product_id u now =
        (.httpErr ⟨403, "You do not have permission to update this product"⟩, store) ∧
      api_partial_update_product store current_user_id product_id upd now =
        (.httpErr ⟨403, "You do not have permission to update this product"⟩, store) ∧
      api_delete_product store current_user_id product_id =
        (.httpErr ⟨403, "You do not have permission to delete this product"⟩, store)) ∧
    (product.owner_id = current_user_id →
      (api_update_product store current_user_id product_id u now).1.statusOf ≠ 403 ∧
      (api_partial_update_product store current_user_id product_id upd now).1.statusOf
        ≠ 403 ∧
      (api_delete_product store current_user_id product_id).1.statusOf ≠ 403) := by
  constructor
  · intro hown
    refine ⟨?_, ?_, ?_⟩
    · simp [api_update_product, hvalid, hfind, hown]
    · simp [api_partial_update_product, hvalid, hfind, hown]
    · simp [api_delete_product, hvalid, hfind, hown]
  · intro hown
    refine ⟨?_, ?_, ?_⟩
    · rcases hr : svc_update_product store product_id u now with ⟨res, st2⟩
      rcases res with e | op
      · simp [api_update_product, hvalid, hfind, hown, hr, RouteResp.statusOf]
      · rcases op with _ | p <;>
          simp [api_update_product, hvalid, hfind, hown, hr, RouteResp.statusOf]
    · rcases hr : svc_partial_update_product store product_id upd now with ⟨res, st2⟩
      rcases res with e | op
      · simp [api_partial_update_product, hvalid, hfind, hown, hr, RouteResp.statusOf]
      · rcases op with _ | p <;>
          simp [api_partial_update_product, hvalid, hfind, hown, hr, RouteResp.statusOf]
    · rcases hr : svc_delete_product store product_id with ⟨res, st2⟩
      rcases res with e | b
      · simp [api_delete_product, hvalid, hfind, hown, hr, DeleteResp.statusOf]
      · rcases b with _ | _ <;>
          simp [api_delete_product, hvalid, hfind, hown, hr, DeleteResp.statusOf]

/-- Product document used in the C1 and C10 witnesses: owned by user
`"aaaaaaaaaaaaaaaaaaaaaaaa"`. -/
def widgetDoc : Doc :=
  [("_id", Value.s "cccccccccccccccccccccccc"), ("name", Value.s "Widget"),
   ("description", Value.s "A widget"), ("price", Value.i 5), ("stock", Value.i 2),
   ("owner_id", Value.s "aaaaaaaaaaaaaaaaaaaaaaaa"), ("is_active", Value.b true),
   ("created_at", Value.i 0), ("updated_at", Value.i 0)]

/-- Witness for C1: a non-owner gets 403 from all three mutating routes
with the store untouched; the owner passes the ownership check on all
three. -/
theorem ownership_guard_c1_witness :
    (api_update_product [widgetDoc] "bbbbbbbbbbbbbbbbbbbbbbbb" "cccccccccccccccccccccccc"
        ⟨none, none, none, none⟩ 1 =
      (.httpErr ⟨403, "You do not have permission to update this product"⟩, [widgetDoc]) ∧
     api_partial_update_product [widgetDoc] "bbbbbbbbbbbbbbbbbbbbbbbb"
        "cccccccccccccccccccccccc" [("stock", Value.i 9)] 1 =
      (.httpErr ⟨403, "You do not have permission to update this product"⟩, [widgetDoc]) ∧
     api_delete_product [widgetDoc] "bbbbbbbbbbbbbbbbbbbbbbbb" "cccccccccccccccccccccccc" =
      (.httpErr ⟨403, "You do not have permission to delete this product"⟩, [widgetDoc])) ∧
    ((api_update_product [widgetDoc] "aaaaaaaaaaaaaaaaaaaaaaaa" "cccccccccccccccccccccccc"
        ⟨none, none, none, none⟩ 1).1.statusOf ≠ 403 ∧
     (api_partial_update_product [widgetDoc] "aaaaaaaaaaaaaaaaaaaaaaaa"
        "cccccccccccccccccccccccc" [("stock", Value.i 9)] 1).1.statusOf ≠ 403 ∧
     (api_delete_product [widgetDoc] "aaaaaaaaaaaaaaaaaaaaaaaa"
        "cccccccccccccccccccccccc").1.statusOf ≠ 403) :=
  ⟨(ownership_guard_c1 [widgetDoc] "bbbbbbbbbbbbbbbbbbbbbbbb" "cccccccccccccccccccccccc"
      ⟨none, none, none, none⟩ [("stock", Value.i 9)] 1
      ⟨some "cccccccccccccccccccccccc", "Widget", some "A widget", 5, 2,
        "aaaaaaaaaaaaaaaaaaaaaaaa", true, some 0, some 0⟩
      (by decide) (by decide)).1 (by decide),
   (ownership_guard_c1 [widgetDoc] "aaaaaaaaaaaaaaaaaaaaaaaa" "cccccccccccccccccccccccc"
      ⟨none, none, none, none⟩ [("stock", Value.i 9)] 1
      ⟨some "cccccccccccccccccccccccc", "Widget", some "A widget", 5, 2,
        "aaaaaaaaaaaaaaaaaaaaaaaa", true, some 0, some 0⟩
      (by decide) (by decide)).2 rfl⟩

/-- A key with a lookup result is among the keys of an association list. -/
theorem lookup_some_mem_keys (l : Doc) (k : String) (v : Value)
    (h : l.lookup k = some v) : k ∈ l.map Prod.fst := by
  induction l with
  | nil => simp [List.lookup] at h
  | cons hd tl ih =>
    rcases hkk : (k == hd.1) with _ | _
    · have h' : tl.lookup k = some v := by
        obtain ⟨k0, v0⟩ := hd
        simpa [List.lookup, hkk] using h
      exact List.mem_cons_of_mem _ (ih h')
    · exact (beq_iff_eq.mp hkk) ▸ List.mem_cons_self _ _

/-- Claim C10: the PATCH route applies exactly the caller-supplied
key/value pairs plus a refreshed `updated_at` to the stored document, with
no whitelist of mutable fields — in particular a dict containing
`owner_id` rewrites the stored `owner_id`, even though the requester was
authorized against the old owner. -/
theorem patch_unrestricted_c10
    (store : List Doc) (current_user_id product_id : String) (upd : Doc) (now : Int)
    (product : ParsedProduct) (d0 : Doc)
    (hvalid : isValidObjectId product_id = true)
    (hfind : svc_get_product_by_id store product_id = .ok (some product))
    (hd0 : store.find? (idMatches product_id) = some d0)
    (howner : product.owner_id = current_user_id)
    (hne : upd ≠ [])
    (hnd : (upd.map Prod.fst).Nodup)
    (hid : "_id" ∉ upd.map Prod.fst)
    (hts : "updated_at" ∉ upd.map Prod.fst) :
    (api_partial_update_product store current_user_id product_id upd now).2.find?
        (idMatches product_id) =
      some (applySet d0 (setField upd "updated_at" (Value.i now))) ∧
    (applySet d0 (setField upd "updated_at" (Value.i now))).lookup "updated_at" =
      some (Value.i now) ∧
    (∀ k v, upd.lookup k = some v →
      (applySet d0 (setField upd "updated_at" (Value.i now))).lookup k = some v) ∧
    (∀ k, k ∉ upd.map Prod.fst → k ≠ "updated_at" →
      (applySet d0 (setField upd "updated_at" (Value.i now))).lookup k = d0.lookup k) ∧
    (∀ w, upd.lookup "owner_id" = some (Value.s w) →
      (applySet d0 (setField upd "updated_at" (Value.i now))).lookup "owner_id" =
        some (Value.s w)) := by
  have hany : upd.any (fun kv => kv.1 == "updated_at") = false := by
    rw [List.any_eq_false]
    intro kv hmem
    simp only [beq_iff_eq]
    intro hEq
    exact hts (List.mem_map.mpr ⟨kv, hmem, hEq⟩)
  have hu2 : setField upd "updated_at" (Value.i now) =
      upd ++ [("updated_at", Value.i now)] := by
    unfold setField
    rw [hany, Bool.cond_false]
  have hkeys : (setField upd "updated_at" (Value.i now)).map Prod.fst =
      upd.map Prod.fst ++ ["updated_at"] := by
    rw [hu2]; simp
  have hndu2 : ((setField upd "updated_at" (Value.i now)).map Prod.fst).Nodup := by
    rw [hkeys]
    refine List.Nodup.append hnd (List.nodup_singleton _) ?_
    intro x hx hy
    simp only [List.mem_singleton] at hy
    subst hy
    exact hts hx
  have hidu2 : "_id" ∉ (setField upd "updated_at" (Value.i now)).map Prod.fst := by
    rw [hkeys]
    simp only [List.mem_append, List.mem_singleton]
    rintro (h | h)
    · exact hid h
    · exact absurd h (by decide)
  have hd0match : idMatches product_id d0 = true := List.find?_some hd0
  have hidapp : idMatches product_id
      (applySet d0 (setField upd "updated_at" (Value.i now))) = true := by
    unfold idMatches at hd0match ⊢
    rw [lookup_applySet_notMem _ _ hidu2 d0]
    exact hd0match
  have hspec := updateFirst_spec product_id (setField upd "updated_at" (Value.i now))
    store d0 hd0 hidapp
  have hempty : upd.isEmpty = false := by
    cases upd with
    | nil => exact absurd rfl hne
    | cons a l => rfl
  have hstore : (api_partial_update_product store current_user_id product_id upd now).2 =
      (updateFirst store product_id (setField upd "updated_at" (Value.i now))).2 := by
    rcases hr : updateFirst store product_id (setField upd "updated_at" (Value.i now))
      with ⟨or, st2⟩
    rcases or with _ | dres
    · simp [api_partial_update_product, svc_partial_update_product, hvalid, hfind,
        howner, hempty, hr]
    · rcases hp : parseProduct dres with _ | p <;>
        simp [api_partial_update_product, svc_partial_update_product, hvalid, hfind,
          howner, hempty, hr, hp]
  refine ⟨?_, ?_, ?_, ?_, ?_⟩
  · rw [hstore]; exact hspec.2
  · exact lookup_applySet_mem _ _ _ hndu2 (lookup_setField_self upd _ _) d0
  · intro k v h
    have hkmem := lookup_some_mem_keys upd k v h
    have hkne : k ≠ "updated_at" := fun hEq => hts (hEq ▸ hkmem)
    have h2 : (setField upd "updated_at" (Value.i now)).lookup k = some v := by
      rw [lookup_setField_ne _ _ _ _ hkne]; exact h
    exact lookup_applySet_mem _ _ _ hndu2 h2 d0
  · intro k hk hkne
    have hnotmem : k ∉ (setField upd "updated_at" (Value.i now)).map Prod.fst := by
      rw [hkeys]
      simp only [List.mem_append, List.mem_singleton]
      rintro (h | h)
      · exact hk h
      · exact hkne h
    exact lookup_applySet_notMem _ _ hnotmem d0
  · intro w h
    have hkmem := lookup_some_mem_keys upd "owner_id" (Value.s w) h
    have hkne : ("owner_id" : String) ≠ "updated_at" := by decide
    have h2 : (setField upd "updated_at" (Value.i now)).lookup "owner_id" =
        some (Value.s w) := by
      rw [lookup_setField_ne _ _ _ _ hkne]; exact h
    exact lookup_applySet_mem _ _ _ hndu2 h2 d0

/-- Witness for C10: patching the widget with
`{"owner_id": "bbbbbbbbbbbbbbbbbbbbbbbb"}` as its current owner rewrites
the stored `owner_id`, which was `"aaaaaaaaaaaaaaaaaaaaaaaa"` before. -/
theorem patch_unrestricted_c10_witness :
    (api_partial_update_product [widgetDoc] "aaaaaaaaaaaaaaaaaaaaaaaa"
        "cccccccccccccccccccccccc"
        [("owner_id", Value.s "bbbbbbbbbbbbbbbbbbbbbbbb")] 1).2.find?
        (idMatches "cccccccccccccccccccccccc") =
      some (applySet widgetDoc
        (setField [("owner_id", Value.s "bbbbbbbbbbbbbbbbbbbbbbbb")]
          "updated_at" (Value.i 1))) ∧
    (applySet widgetDoc
        (setField [("owner_id", Value.s "bbbbbbbbbbbbbbbbbbbbbbbb")]
          "updated_at" (Value.i 1))).lookup "owner_id" =
      some (Value.s "bbbbbbbbbbbbbbbbbbbbbbbb") ∧
    widgetDoc.lookup "owner_id" = some (Value.s "aaaaaaaaaaaaaaaaaaaaaaaa") := by
  have h := patch_unrestricted_c10 [widgetDoc] "aaaaaaaaaaaaaaaaaaaaaaaa"
      "cccccccccccccccccccccccc" [("owner_id", Value.s "bbbbbbbbbbbbbbbbbbbbbbbb")] 1
      ⟨some "cccccccccccccccccccccccc", "Widget", some "A widget", 5, 2,
        "aaaaaaaaaaaaaaaaaaaaaaaa", true, some 0, some 0⟩ widgetDoc
      (by decide) (by decide) (by decide) rfl (by decide) (by decide) (by decide)
      (by decide)
  exact ⟨h.1, h.2.2.2.2 "bbbbbbbbbbbbbbbbbbbbbbbb" rfl, rfl⟩
